import Mathlib

/-!
Verification of the Opera_DB ERD schema engine.

This file gives a shallow embedding of the schema data model and the
operations of the frontend (src/frontend/src/App.tsx,
src/frontend/src/utils/schemaValidator.ts,
src/frontend/src/components/DiagramCanvas.tsx) and proves properties of
the validator, the junction-table normalizer, table removal and the
relationship editor.
-/

namespace OperaDB

/-- Column, from the App.tsx interface: name, type, nullable, primary_key,
foreign_key (optional reference string), unique, default (optional). -/
structure Column where
  name : String
  type : String
  nullable : Bool
  primary_key : Bool
  foreign_key : Option String
  unique : Bool
  default : Option String
deriving DecidableEq, Repr

/-- Table, from the App.tsx interface.  The layout position (owned by the
rendering layer) is carried opaquely as a pair of integers. -/
structure Table where
  id : String
  name : String
  columns : List Column
  position : Int × Int
deriving DecidableEq, Repr

/-- Relationship, from the App.tsx interface. -/
structure Relationship where
  from_table : String
  from_column : String
  to_table : String
  to_column : String
  relationship_type : String
  cardinality : String
deriving DecidableEq, Repr

/-- Severity of a validation finding: the type field of ValidationError,
either error or warning. -/
inductive Severity where
  | error : Severity
  | warning : Severity
deriving DecidableEq, Repr

/-- ValidationError, from schemaValidator.ts: severity, message, and the
optional locators (table name, column name, relationship index). -/
structure ValidationError where
  type : Severity
  message : String
  table : Option String
  column : Option String
  relationship : Option Nat
deriving DecidableEq, Repr

/-- Duplicate table name error (schemaValidator.ts check 1). -/
def dupTableError (name : String) : ValidationError :=
  ⟨Severity.error, s!"Duplicate table name: {name}", some name, none, none⟩

/-- Missing primary key warning (schemaValidator.ts check 2). -/
def noPkWarning (name : String) : ValidationError :=
  ⟨Severity.warning, s!"Table \x27{name}\x27 has no primary key", some name, none, none⟩

/-- Duplicate column name error (schemaValidator.ts check 2). -/
def dupColError (tname cname : String) : ValidationError :=
  ⟨Severity.error, s!"Duplicate column name \x27{cname}\x27 in table \x27{tname}\x27",
    some tname, some cname, none⟩

/-- Relationship endpoint table missing error (schemaValidator.ts check 3). -/
def missingTableError (index : Nat) (tname : String) : ValidationError :=
  ⟨Severity.error, s!"Relationship references non-existent table: {tname}", none, none, some index⟩

/-- Relationship endpoint column missing error (schemaValidator.ts check 3). -/
def missingColumnError (index : Nat) (cname tname : String) : ValidationError :=
  ⟨Severity.error, s!"Column \x27{cname}\x27 does not exist in table \x27{tname}\x27",
    none, none, some index⟩

/-- Cardinality mismatch warning (schemaValidator.ts check 3). -/
def cardinalityMismatchWarning (index : Nat) (card rtype : String) : ValidationError :=
  ⟨Severity.warning,
    s!"Cardinality \x27{card}\x27 doesn\x27t match relationship type \x27{rtype}\x27",
    none, none, some index⟩

/-- Foreign key referencing a non-existent table (schemaValidator.ts check 4). -/
def fkMissingTableError (tname cname ref : String) : ValidationError :=
  ⟨Severity.error,
    s!"Foreign key in \x27{tname}.{cname}\x27 references non-existent table \x27{ref}\x27",
    some tname, some cname, none⟩

/-- Foreign key referencing a non-existent column (schemaValidator.ts check 4). -/
def fkMissingColumnError (tname cname rt rc : String) : ValidationError :=
  ⟨Severity.error,
    s!"Foreign key in \x27{tname}.{cname}\x27 references non-existent column \x27{rt}.{rc}\x27",
    some tname, some cname, none⟩

/-- Foreign key referencing a non-unique column (schemaValidator.ts check 4). -/
def fkNonUniqueWarning (tname cname rt rc : String) : ValidationError :=
  ⟨Severity.warning,
    s!"Foreign key in \x27{tname}.{cname}\x27 references non-unique column \x27{rt}.{rc}\x27",
    some tname, some cname, none⟩

/-- Malformed foreign key reference string (schemaValidator.ts check 4). -/
def fkInvalidFormatError (tname cname fk : String) : ValidationError :=
  ⟨Severity.error,
    s!"Invalid foreign key format in \x27{tname}.{cname}\x27: {fk}",
    some tname, some cname, none⟩

/-- Lookup in the name-to-table map built by
new Map(tables.map(t =&gt; [t.name, t])): later entries overwrite earlier ones,
so the last table with the given name wins. -/
def lookupTable (tables : List Table) (name : String) : Option Table :=
  tables.foldl (fun acc t => if t.name = name then some t else acc) none

/-- The cardinalityTypeMap of schemaValidator.ts, with the JS fallback
cardinalityTypeMap[c] or-else the empty list for unknown cardinalities. -/
def cardinalityTypeMap (c : String) : List String :=
  if c = "1:1" then ["one-to-one"]
  else if c = "1:N" then ["one-to-many", "many-to-one"]
  else if c = "N:M" then ["many-to-many"]
  else []

/-- A word character in the sense of the JS regex class backslash-w:
letters, digits, underscore. -/
def isWordChar (c : Char) : Bool := c.isAlphanum || c == '_'

/-- Matching the foreign-key reference string against the anchored JS regex
of shape word-plus, open paren, word-plus, close paren, returning the two
capture groups on success. -/
def parseForeignKey (s : String) : Option (String × String) :=
  let t := s.data.takeWhile isWordChar
  match s.data.dropWhile isWordChar with
  | '(' :: rest2 =>
    let c := rest2.takeWhile isWordChar
    match t, c, rest2.dropWhile isWordChar with
    | _ :: _, _ :: _, [')'] => some (String.mk t, String.mk c)
    | _, _, _ => none
  | _ => none

/-- Findings of validateSchema check 1 for the remaining tables, given the
set of table names already seen (the JS Set is modelled as a list). -/
def dupTableFindings : List Table → List String → List ValidationError
  | [], _ => []
  | t :: rest, seen =>
    (if seen.contains t.name then [dupTableError t.name] else []) ++
      dupTableFindings rest (t.name :: seen)

/-- Duplicate-column findings of validateSchema check 2 for one table,
given the set of column names already seen. -/
def dupColFindings (tname : String) : List Column → List String → List ValidationError
  | [], _ => []
  | c :: rest, seen =>
    (if seen.contains c.name then [dupColError tname c.name] else []) ++
      dupColFindings tname rest (c.name :: seen)

/-- Findings of validateSchema check 2 for one table: the missing-primary-key
warning, then the duplicate-column errors, in the order the source pushes
them. -/
def tableFindings (t : Table) : List ValidationError :=
  (if (t.columns.filter (fun col => col.primary_key)).length = 0
    then [noPkWarning t.name] else []) ++
  dupColFindings t.name t.columns []

/-- Findings of validateSchema check 3 for one relationship at a given index:
missing endpoint tables, missing endpoint columns (only checked when the
table exists), then the cardinality mismatch warning. -/
def relFindings (tables : List Table) (index : Nat) (rel : Relationship) :
    List ValidationError :=
  let fromTable := lookupTable tables rel.from_table
  let toTable := lookupTable tables rel.to_table
  (match fromTable with
   | none => [missingTableError index rel.from_table]
   | some _ => []) ++
  (match toTable with
   | none => [missingTableError index rel.to_table]
   | some _ => []) ++
  (match fromTable with
   | some t =>
     match t.columns.find? (fun col => col.name == rel.from_column) with
     | none => [missingColumnError index rel.from_column rel.from_table]
     | some _ => []
   | none => []) ++
  (match toTable with
   | some t =>
     match t.columns.find? (fun col => col.name == rel.to_column) with
     | none => [missingColumnError index rel.to_column rel.to_table]
     | some _ => []
   | none => []) ++
  (if (cardinalityTypeMap rel.cardinality).contains rel.relationship_type then []
   else [cardinalityMismatchWarning index rel.cardinality rel.relationship_type])

/-- Findings of validateSchema check 3 for a list of relationships starting
at a given index (the forEach index). -/
def relSection (tables : List Table) : List Relationship → Nat → List ValidationError
  | [], _ => []
  | r :: rest, i => relFindings tables i r ++ relSection tables rest (i + 1)

/-- Findings of validateSchema check 4 for one column: the foreign-key
reference is matched against the regex, then the referenced table, the
referenced column and its uniqueness are checked, first failing condition
only. -/
def fkFindings (tables : List Table) (tname : String) (column : Column) :
    List ValidationError :=
  match column.foreign_key with
  | none => []
  | some fk =>
    match parseForeignKey fk with
    | some (refTableName, refColumnName) =>
      match lookupTable tables refTableName with
      | none => [fkMissingTableError tname column.name refTableName]
      | some refTable =>
        match refTable.columns.find? (fun col => col.name == refColumnName) with
        | none => [fkMissingColumnError tname column.name refTableName refColumnName]
        | some refColumn =>
          if !refColumn.primary_key && !refColumn.unique then
            [fkNonUniqueWarning tname column.name refTableName refColumnName]
          else []
    | none => [fkInvalidFormatError tname column.name fk]

/-- Findings of validateSchema check 4 for the whole schema, in table then
column order. -/
def fkSection (tables : List Table) : List ValidationError :=
  tables.flatMap (fun t => t.columns.flatMap (fkFindings tables t.name))

/-- Check 1 loop of validateSchema, pushing into the errors accumulator. -/
def validateLoop1 : List Table → List String → List ValidationError → List ValidationError
  | [], _, errors => errors
  | t :: rest, seen, errors =>
    validateLoop1 rest (t.name :: seen)
      (if seen.contains t.name then errors ++ [dupTableError t.name] else errors)

/-- Inner duplicate-column loop of check 2, pushing into the accumulator. -/
def validateLoop2Cols (tname : String) :
    List Column → List String → List ValidationError → List ValidationError
  | [], _, errors => errors
  | c :: rest, seen, errors =>
    validateLoop2Cols tname rest (c.name :: seen)
      (if seen.contains c.name then errors ++ [dupColError tname c.name] else errors)

/-- Check 2 loop of validateSchema: per table the primary-key warning is
pushed first, then that table's duplicate-column errors. -/
def validateLoop2 : List Table → List ValidationError → List ValidationError
  | [], errors => errors
  | t :: rest, errors =>
    validateLoop2 rest
      (validateLoop2Cols t.name t.columns []
        (if (t.columns.filter (fun col => col.primary_key)).length = 0
          then errors ++ [noPkWarning t.name] else errors))

/-- Check 3 loop of validateSchema over the relationships with their
forEach index. -/
def validateLoop3 (tables : List Table) :
    List Relationship → Nat → List ValidationError → List ValidationError
  | [], _, errors => errors
  | r :: rest, i, errors =>
    validateLoop3 tables rest (i + 1) (errors ++ relFindings tables i r)

/-- Inner column loop of check 4, pushing into the accumulator. -/
def validateLoop4Cols (tables : List Table) (tname : String) :
    List Column → List ValidationError → List ValidationError
  | [], errors => errors
  | c :: rest, errors => validateLoop4Cols tables tname rest (errors ++ fkFindings tables tname c)

/-- Check 4 loop of validateSchema over the tables. -/
def validateLoop4 (tables : List Table) :
    List Table → List ValidationError → List ValidationError
  | [], errors => errors
  | t :: rest, errors => validateLoop4 tables rest (validateLoop4Cols tables t.name t.columns errors)

/-- SchemaValidator.validateSchema: the four check loops run in sequence on
one errors accumulator, exactly as the source pushes findings. -/
def validateSchema (tables : List Table) (relationships : List Relationship) :
    List ValidationError :=
  validateLoop4 tables tables
    (validateLoop3 tables relationships 0
      (validateLoop2 tables
        (validateLoop1 tables [] [])))

/-- The per-relationship condition of getRelationshipErrors: true when an
endpoint table is missing, or, both endpoint tables existing, when an
endpoint column is missing (the early return and the second push of the
source body). -/
def relEndpointsBroken (tables : List Table) (r : Relationship) : Bool :=
  match lookupTable tables r.from_table, lookupTable tables r.to_table with
  | some ft, some tt =>
    match ft.columns.find? (fun col => col.name == r.from_column),
          tt.columns.find? (fun col => col.name == r.to_column) with
    | some _, some _ => false
    | _, _ => true
  | _, _ => true

/-- SchemaValidator.getRelationshipErrors inner loop, carrying the forEach
index: an index is pushed exactly when its relationship has broken
endpoints. -/
def getRelErrorsLoop (tables : List Table) : List Relationship → Nat → List Nat
  | [], _ => []
  | r :: rest, i =>
    (if relEndpointsBroken tables r then [i] else []) ++ getRelErrorsLoop tables rest (i + 1)

/-- SchemaValidator.getRelationshipErrors.  App.tsx builds the table map
passed to it from the same tables list with
new Map(tables.map(t =&gt; [t.name, t])), which lookupTable models. -/
def getRelationshipErrors (relationships : List Relationship) (tables : List Table) :
    List Nat :=
  getRelErrorsLoop tables relationships 0

/-- App state: the tables and relationships React state of App.tsx. -/
structure AppState where
  tables : List Table
  relationships : List Relationship
deriving DecidableEq, Repr

/-- Omit of Table and id: the argument of App.tsx addTable. -/
structure TableInput where
  name : String
  columns : List Column
  position : Int × Int
deriving DecidableEq, Repr

/-- App.tsx addTable: the id is the table name when that is non-empty
(JS truthiness of the string), otherwise a timestamp-based fallback;
Date.now() is passed in as the now argument. -/
def addTable (s : AppState) (now : Nat) (t : TableInput) : AppState :=
  let newId := if t.name = "" then "table_" ++ toString now else t.name
  { s with tables := s.tables ++ [⟨newId, t.name, t.columns, t.position⟩] }

/-- App.tsx removeTable: tables are filtered by id; relationships are
filtered by comparing their endpoint table-name fields against that same
id string. -/
def removeTable (s : AppState) (id : String) : AppState :=
  { tables := s.tables.filter (fun t => t.id != id),
    relationships :=
      s.relationships.filter (fun rel => rel.from_table != id && rel.to_table != id) }

/-- App.tsx addRelationship. -/
def addRelationship (s : AppState) (r : Relationship) : AppState :=
  { s with relationships := s.relationships ++ [r] }

/-- A relationship is an N:M relationship between the two named tables,
in either direction: the predicate of the removal filter inside
createJunctionTable. -/
def isNMBetween (a b : String) (rel : Relationship) : Bool :=
  (rel.from_table == a && rel.to_table == b && rel.cardinality == "N:M") ||
  (rel.from_table == b && rel.to_table == a && rel.cardinality == "N:M")

/-- App.tsx createJunctionTable: unconditionally builds the junction table,
adds it through addTable, filters out the N:M relationships between the two
tables (in either direction), and appends the two one-to-many relationships
into the junction table.  The random position and Date.now() are passed in
as the pos and now arguments. -/
def createJunctionTable (s : AppState) (fromTable toTable : String)
    (pos : Int × Int) (now : Nat) : AppState :=
  let junctionTableName := fromTable ++ "_" ++ toTable
  let junctionTable : TableInput :=
    ⟨junctionTableName,
      [⟨fromTable ++ "_id", "INTEGER", false, true, some (fromTable ++ "(id)"), false, none⟩,
       ⟨toTable ++ "_id", "INTEGER", false, true, some (toTable ++ "(id)"), false, none⟩,
       ⟨"created_at", "TIMESTAMP", false, false, none, false, some "CURRENT_TIMESTAMP"⟩],
      pos⟩
  let s1 := addTable s now junctionTable
  let s2 := { s1 with relationships :=
    s1.relationships.filter (fun rel =>
      !(rel.from_table == fromTable && rel.to_table == toTable && rel.cardinality == "N:M") &&
      !(rel.from_table == toTable && rel.to_table == fromTable && rel.cardinality == "N:M")) }
  let s3 := addRelationship s2
    ⟨fromTable, "id", junctionTableName, fromTable ++ "_id", "one-to-many", "1:N"⟩
  addRelationship s3
    ⟨toTable, "id", junctionTableName, toTable ++ "_id", "one-to-many", "1:N"⟩

/-- The cardinalityOptions list of RelationshipPanel (DiagramCanvas.tsx),
reduced to the value and type fields consumed by the edit handlers. -/
def cardinalityOptions : List (String × String) :=
  [("1:1", "one-to-one"), ("1:N", "one-to-many"), ("N:M", "many-to-many")]

/-- The cardinality select handler of RelationshipPanel: sets the chosen
cardinality and re-derives relationship_type from cardinalityOptions, with
the JS or-else fallback one-to-many. -/
def setCardinality (rel : Relationship) (value : String) : Relationship :=
  let selectedOption := cardinalityOptions.find? (fun opt => opt.1 == value)
  { rel with cardinality := value,
             relationship_type := (selectedOption.map (fun o => o.2)).getD "one-to-many" }

/-- The relationship-type select handler of RelationshipPanel: sets the
chosen type and re-derives cardinality, with many-to-one normalized to 1:N
and the cardinality left unchanged for unrecognized values. -/
def setRelationshipType (rel : Relationship) (value : String) : Relationship :=
  let derivedCardinality :=
    if value == "one-to-one" then "1:1"
    else if value == "one-to-many" then "1:N"
    else if value == "many-to-one" then "1:N"
    else if value == "many-to-many" then "N:M"
    else rel.cardinality
  { rel with relationship_type := value, cardinality := derivedCardinality }

/-- App.tsx updateRelationship: prev.map applying the update exactly at the
given index (the panel passes the merged field updates, modelled as the
update function). -/
def updateRelationship : List Relationship → Nat → (Relationship → Relationship) →
    List Relationship
  | [], _, _ => []
  | r :: rest, 0, f => f r :: rest
  | r :: rest, n + 1, f => r :: updateRelationship rest n f

/-- DiagramCanvas.tsx onConnect: a newly drawn connection is created with
relationship_type one-to-many and cardinality 1:N. -/
def connectRelationship (source sourceHandle target targetHandle : String) : Relationship :=
  ⟨source, sourceHandle, target, targetHandle, "one-to-many", "1:N"⟩

/-- A relationship satisfies the cardinality-to-type mapping of the data
model. -/
def satisfiesMapping (r : Relationship) : Bool :=
  (cardinalityTypeMap r.cardinality).contains r.relationship_type

/-- A relationship has a broken endpoint in the sense of validateSchema
check 3: a missing endpoint table, or an endpoint column missing from an
existing endpoint table. -/
def brokenEndpoints (tables : List Table) (r : Relationship) : Prop :=
  lookupTable tables r.from_table = none ∨
  lookupTable tables r.to_table = none ∨
  (∃ ft, lookupTable tables r.from_table = some ft ∧
    ft.columns.find? (fun col => col.name == r.from_column) = none) ∨
  (∃ tt, lookupTable tables r.to_table = some tt ∧
    tt.columns.find? (fun col => col.name == r.to_column) = none)

/-- An INTEGER primary-key id column, as in the SQLEditor sample schema:
used as concrete test data. -/
def intIdCol : Column := ⟨"id", "INTEGER", false, true, none, false, none⟩

/-- Concrete authors table for tests. -/
def authorsTable : Table := ⟨"authors", "authors", [intIdCol], (0, 0)⟩

/-- Concrete books table for tests. -/
def booksTable : Table := ⟨"books", "books", [intIdCol], (0, 0)⟩

/-- Concrete app state: authors and books joined by an N:M relationship. -/
def demoNM : AppState :=
  ⟨[authorsTable, booksTable],
   [⟨"authors", "id", "books", "id", "many-to-many", "N:M"⟩]⟩

/-- A nullable column without primary key, named a: used to build a table
with duplicate column names and no primary key. -/
def aCol : Column := ⟨"a", "INTEGER", true, false, none, false, none⟩

/-- Concrete table with two columns both named a and no primary key. -/
def dupColTable : Table := ⟨"t", "t", [aCol, aCol], (0, 0)⟩

/-- Concrete relationship whose cardinality 1:1 clashes with its
relationship type many-to-many. -/
def mismatchRel : Relationship := ⟨"a", "x", "b", "y", "many-to-many", "1:1"⟩

/-- Concrete column whose foreign key references the non-existent table
ghost, as in the spec test. -/
def ghostCol : Column := ⟨"owner_id", "INTEGER", true, false, some "ghost(id)", false, none⟩

/-- Concrete table as produced by the SQL parse path of SQLEditor.tsx:
the id is a timestamp-and-index string, different from the table name. -/
def parsedUsersTable : Table := ⟨"table_1700000000000_0", "users", [intIdCol], (50, 50)⟩

/-- Concrete relationship referencing the parsed users table by name. -/
def usersSelfRel : Relationship := ⟨"users", "id", "users", "id", "one-to-one", "1:1"⟩

/-- Concrete relationship list for the relationship-editor tests. -/
def editDemoRels : List Relationship := [⟨"a", "x", "b", "y", "one-to-one", "1:1"⟩]

theorem validateLoop1_eq (ts : List Table) :
    ∀ seen errors, validateLoop1 ts seen errors = errors ++ dupTableFindings ts seen := by
  induction ts with
  | nil => intro seen errors; simp [validateLoop1, dupTableFindings]
  | cons t rest ih =>
    intro seen errors
    by_cases hc : t.name ∈ seen <;>
      simp [validateLoop1, dupTableFindings, hc, ih, List.append_assoc]

theorem validateLoop2Cols_eq (tname : String) (cs : List Column) :
    ∀ seen errors, validateLoop2Cols tname cs seen errors =
      errors ++ dupColFindings tname cs seen := by
  induction cs with
  | nil => intro seen errors; simp [validateLoop2Cols, dupColFindings]
  | cons c rest ih =>
    intro seen errors
    by_cases hc : c.name ∈ seen <;>
      simp [validateLoop2Cols, dupColFindings, hc, ih, List.append_assoc]

theorem validateLoop2_eq (ts : List Table) :
    ∀ errors, validateLoop2 ts errors = errors ++ ts.flatMap tableFindings := by
  induction ts with
  | nil => intro errors; simp [validateLoop2]
  | cons t rest ih =>
    intro errors
    by_cases hpk : (t.columns.filter (fun col => col.primary_key)).length = 0 <;>
      simp [validateLoop2, hpk, ih, validateLoop2Cols_eq, tableFindings, List.append_assoc]

theorem validateLoop3_eq (tables : List Table) (rs : List Relationship) :
    ∀ i errors, validateLoop3 tables rs i errors = errors ++ relSection tables rs i := by
  induction rs with
  | nil => intro i errors; simp [validateLoop3, relSection]
  | cons r rest ih =>
    intro i errors
    simp [validateLoop3, relSection, ih, List.append_assoc]

theorem validateLoop4Cols_eq (tables : List Table) (tname : String) (cs : List Column) :
    ∀ errors, validateLoop4Cols tables tname cs errors =
      errors ++ cs.flatMap (fkFindings tables tname) := by
  induction cs with
  | nil => intro errors; simp [validateLoop4Cols]
  | cons c rest ih =>
    intro errors
    simp [validateLoop4Cols, ih, List.append_assoc]

theorem validateLoop4_eq (tables : List Table) (ts : List Table) :
    ∀ errors, validateLoop4 tables ts errors =
      errors ++ ts.flatMap (fun t => t.columns.flatMap (fkFindings tables t.name)) := by
  induction ts with
  | nil => intro errors; simp [validateLoop4]
  | cons t rest ih =>
    intro errors
    simp [validateLoop4, ih, validateLoop4Cols_eq, List.append_assoc]

/-- validateSchema decomposes into its four check sections, in source order:
duplicate-table errors, then per table the primary-key warning followed by
that table's duplicate-column errors, then the relationship findings in
index order, then the foreign-key findings in table and column order. -/
theorem validateSchema_eq_sections (ts : List Table) (rs : List Relationship) :
    validateSchema ts rs =
      dupTableFindings ts [] ++ ts.flatMap tableFindings ++
        relSection ts rs 0 ++ fkSection ts := by
  simp [validateSchema, validateLoop1_eq, validateLoop2_eq, validateLoop3_eq,
    validateLoop4_eq, fkSection, List.append_assoc]

theorem mem_dupTableFindings (ts : List Table) :
    ∀ seen e, e ∈ dupTableFindings ts seen →
      e.type = Severity.error ∧ e.relationship = none := by
  induction ts with
  | nil => intro seen e h; simp [dupTableFindings] at h
  | cons t rest ih =>
    intro seen e h
    by_cases hc : t.name ∈ seen <;> simp [dupTableFindings, hc] at h
    · rcases h with h | h
      · subst h; exact ⟨rfl, rfl⟩
      · exact ih _ e h
    · exact ih _ e h

theorem mem_dupColFindings (tname : String) (cs : List Column) :
    ∀ seen e, e ∈ dupColFindings tname cs seen →
      e.type = Severity.error ∧ e.relationship = none := by
  induction cs with
  | nil => intro seen e h; simp [dupColFindings] at h
  | cons c rest ih =>
    intro seen e h
    by_cases hc : c.name ∈ seen <;> simp [dupColFindings, hc] at h
    · rcases h with h | h
      · subst h; exact ⟨rfl, rfl⟩
      · exact ih _ e h
    · exact ih _ e h

theorem mem_tableFindings (t : Table) (e : ValidationError) (h : e ∈ tableFindings t) :
    e.relationship = none ∧ (e = noPkWarning t.name ∨ e.type = Severity.error) := by
  unfold tableFindings at h
  rw [List.mem_append] at h
  rcases h with h | h
  · by_cases hpk : (t.columns.filter (fun col => col.primary_key)).length = 0 <;>
      simp [hpk] at h
    subst h; exact ⟨rfl, Or.inl rfl⟩
  · have := mem_dupColFindings t.name t.columns [] e h
    exact ⟨this.2, Or.inr this.1⟩

theorem mem_fkFindings (tables : List Table) (tname : String) (c : Column)
    (e : ValidationError) (h : e ∈ fkFindings tables tname c) :
    e.relationship = none ∧ e.table = some tname ∧ e.column = some c.name := by
  unfold fkFindings at h
  repeat' split at h
  all_goals simp at h
  all_goals subst h
  all_goals exact ⟨rfl, rfl, rfl⟩

theorem mem_relFindings (tables : List Table) (j : Nat) (r : Relationship)
    (e : ValidationError) (h : e ∈ relFindings tables j r) :
    e.relationship = some j := by
  unfold relFindings at h
  repeat rw [List.mem_append] at h
  rcases h with (((h | h) | h) | h) | h <;> repeat' split at h
  all_goals simp at h
  all_goals subst h
  all_goals rfl

theorem mem_relSection (tables : List Table) (rs : List Relationship) :
    ∀ m e, e ∈ relSection tables rs m →
      ∃ j, m ≤ j ∧ e.relationship = some j := by
  induction rs with
  | nil => intro m e h; simp [relSection] at h
  | cons r rest ih =>
    intro m e h
    rw [relSection, List.mem_append] at h
    rcases h with h | h
    · exact ⟨m, le_refl m, mem_relFindings tables m r e h⟩
    · obtain ⟨j, hj, he⟩ := ih (m + 1) e h
      exact ⟨j, by omega, he⟩

theorem noPkWarning_inj (a b : String) : noPkWarning a = noPkWarning b ↔ a = b := by
  constructor
  · intro h
    exact Option.some.inj (congrArg ValidationError.table h)
  · intro h; rw [h]

theorem count_noPk_dupTableFindings (ts : List Table) (seen : List String) (name : String) :
    (dupTableFindings ts seen).count (noPkWarning name) = 0 := by
  rw [List.count_eq_zero]
  intro hmem
  have h := (mem_dupTableFindings ts seen _ hmem).1
  simp [noPkWarning] at h

theorem count_noPk_relSection (tables : List Table) (rs : List Relationship) (m : Nat)
    (name : String) : (relSection tables rs m).count (noPkWarning name) = 0 := by
  rw [List.count_eq_zero]
  intro hmem
  obtain ⟨j, _, hj⟩ := mem_relSection tables rs m _ hmem
  simp [noPkWarning] at hj

theorem count_noPk_fkSection (tables : List Table) (name : String) :
    (fkSection tables).count (noPkWarning name) = 0 := by
  rw [List.count_eq_zero]
  intro hmem
  simp only [fkSection, List.mem_flatMap] at hmem
  obtain ⟨t, _, c, _, hc⟩ := hmem
  have h := (mem_fkFindings tables t.name c _ hc).2.2
  simp [noPkWarning] at h

theorem count_noPk_tableFindings (t : Table) (name : String) :
    (tableFindings t).count (noPkWarning name) =
      if t.name = name ∧ (t.columns.filter (fun c => c.primary_key)).length = 0
        then 1 else 0 := by
  have hdup : (dupColFindings t.name t.columns []).count (noPkWarning name) = 0 := by
    rw [List.count_eq_zero]
    intro hmem
    have h := (mem_dupColFindings t.name t.columns [] _ hmem).1
    simp [noPkWarning] at h
  unfold tableFindings
  rw [List.count_append, hdup]
  by_cases hpk : (t.columns.filter (fun col => col.primary_key)).length = 0 <;>
    by_cases hn : t.name = name <;>
      simp [hpk, hn, List.count_cons, noPkWarning_inj]

theorem count_noPk_flatMap (name : String) : ∀ ts : List Table,
    (ts.flatMap tableFindings).count (noPkWarning name) =
      (ts.filter (fun t => t.name == name &&
        (t.columns.filter (fun c => c.primary_key)).length == 0)).length := by
  intro ts
  induction ts with
  | nil => simp
  | cons t rest ih =>
    rw [List.flatMap_cons, List.count_append, ih, count_noPk_tableFindings]
    by_cases hn : t.name = name <;>
      by_cases hpk : (t.columns.filter (fun c => c.primary_key)).length = 0 <;>
        simp [hn, hpk, List.filter_cons, Nat.add_comm]

/-- C9: for every schema, the number of missing-primary-key warnings that
validateSchema emits locating a given table name equals the number of
tables with that name having no primary_key column: exactly one per such
table, and none for a table with a primary key. -/
theorem validateSchema_noPk_count (tables : List Table) (rels : List Relationship)
    (name : String) :
    (validateSchema tables rels).count (noPkWarning name) =
      (tables.filter (fun t => t.name == name &&
        (t.columns.filter (fun c => c.primary_key)).length == 0)).length := by
  rw [validateSchema_eq_sections]
  simp [List.count_append, count_noPk_dupTableFindings, count_noPk_relSection,
    count_noPk_fkSection, count_noPk_flatMap]

theorem count_mismatch_relFindings_self (tables : List Table) (n : Nat) (rel : Relationship) :
    (relFindings tables n rel).count
      (cardinalityMismatchWarning n rel.cardinality rel.relationship_type) =
      if (cardinalityTypeMap rel.cardinality).contains rel.relationship_type
        then 0 else 1 := by
  rcases hf : lookupTable tables rel.from_table with _ | ft <;>
    rcases ht : lookupTable tables rel.to_table with _ | tt <;>
    simp only [relFindings, hf, ht] <;>
    (try rcases hfc : ft.columns.find? (fun col => col.name == rel.from_column) with _ | fc) <;>
    (try rcases htc : tt.columns.find? (fun col => col.name == rel.to_column) with _ | tc) <;>
    (try simp only [hfc]) <;> (try simp only [htc]) <;>
    by_cases hc : rel.relationship_type ∈ cardinalityTypeMap rel.cardinality <;>
    simp [hc, List.count_append, List.count_cons, beq_iff_eq,
      cardinalityMismatchWarning, missingTableError, missingColumnError]

theorem count_mismatch_relFindings_other (tables : List Table) (n j : Nat)
    (r : Relationship) (card rtype : String) (hne : j ≠ n) :
    (relFindings tables n r).count (cardinalityMismatchWarning j card rtype) = 0 := by
  rw [List.count_eq_zero]
  intro hm
  have h := mem_relFindings tables n r _ hm
  simp [cardinalityMismatchWarning] at h
  omega

theorem count_mismatch_relSection (tables : List Table) (rs : List Relationship) :
    ∀ (n k : Nat) (rel : Relationship), rs[k]? = some rel →
      (relSection tables rs n).count
        (cardinalityMismatchWarning (n + k) rel.cardinality rel.relationship_type) =
        if (cardinalityTypeMap rel.cardinality).contains rel.relationship_type
          then 0 else 1 := by
  induction rs with
  | nil => intro n k rel h; simp at h
  | cons r rest ih =>
    intro n k rel h
    rw [relSection, List.count_append]
    cases k with
    | zero =>
      have hr : r = rel := by simpa using h
      subst hr
      have hz : (relSection tables rest (n + 1)).count
          (cardinalityMismatchWarning (n + 0) r.cardinality r.relationship_type) = 0 := by
        rw [List.count_eq_zero]
        intro hm
        obtain ⟨j, hj, he⟩ := mem_relSection tables rest (n + 1) _ hm
        simp [cardinalityMismatchWarning] at he
        omega
      rw [hz]
      simp only [Nat.add_zero]
      rw [count_mismatch_relFindings_self]
    | succ m =>
      have h2 : rest[m]? = some rel := by simpa using h
      have harith : n + (m + 1) = (n + 1) + m := by omega
      rw [harith, ih (n + 1) m rel h2,
        count_mismatch_relFindings_other tables n ((n + 1) + m) r _ _ (by omega),
        Nat.zero_add]

/-- C7: validateSchema emits the cardinality-mismatch warning for a
relationship index exactly when the cardinality and relationship_type pair
is outside the cardinalityTypeMap mapping: count one when mismatched, zero
when legal. -/
theorem validateSchema_mismatch_count (tables : List Table) (rels : List Relationship)
    (i : Nat) (rel : Relationship) (h : rels[i]? = some rel) :
    (validateSchema tables rels).count
      (cardinalityMismatchWarning i rel.cardinality rel.relationship_type) =
      if (cardinalityTypeMap rel.cardinality).contains rel.relationship_type
        then 0 else 1 := by
  rw [validateSchema_eq_sections]
  simp only [List.count_append]
  have h1 : (dupTableFindings tables []).count
      (cardinalityMismatchWarning i rel.cardinality rel.relationship_type) = 0 := by
    rw [List.count_eq_zero]
    intro hm
    have := (mem_dupTableFindings tables [] _ hm).2
    simp [cardinalityMismatchWarning] at this
  have h2 : (tables.flatMap tableFindings).count
      (cardinalityMismatchWarning i rel.cardinality rel.relationship_type) = 0 := by
    rw [List.count_eq_zero]
    intro hm
    rw [List.mem_flatMap] at hm
    obtain ⟨t, _, hmem⟩ := hm
    have := (mem_tableFindings t _ hmem).1
    simp [cardinalityMismatchWarning] at this
  have h4 : (fkSection tables).count
      (cardinalityMismatchWarning i rel.cardinality rel.relationship_type) = 0 := by
    rw [List.count_eq_zero]
    intro hm
    simp only [fkSection, List.mem_flatMap] at hm
    obtain ⟨t, _, c, _, hc⟩ := hm
    have := (mem_fkFindings tables t.name c _ hc).1
    simp [cardinalityMismatchWarning] at this
  have h3 := count_mismatch_relSection tables rels 0 i rel h
  rw [Nat.zero_add] at h3
  rw [h1, h2, h3, h4]
  simp

/-- C6: for a column carrying a foreign_key string, the check-4 emitter
fkFindings of validateSchema produces at most one finding, decided by the
first failing condition: malformed reference shape, then missing referenced
table, then missing referenced column, then a warning for a referent that
is neither primary key nor unique, and no finding when the reference
resolves to a primary-key or unique column. -/
theorem fkFindings_first_fail (tables : List Table) (tname : String) (c : Column)
    (fk : String) (hfk : c.foreign_key = some fk) :
    (fkFindings tables tname c).length ≤ 1 ∧
    (parseForeignKey fk = none →
      fkFindings tables tname c = [fkInvalidFormatError tname c.name fk]) ∧
    (∀ rt rc, parseForeignKey fk = some (rt, rc) →
      (lookupTable tables rt = none →
        fkFindings tables tname c = [fkMissingTableError tname c.name rt]) ∧
      (∀ refT, lookupTable tables rt = some refT →
        (refT.columns.find? (fun col => col.name == rc) = none →
          fkFindings tables tname c = [fkMissingColumnError tname c.name rt rc]) ∧
        (∀ refC, refT.columns.find? (fun col => col.name == rc) = some refC →
          (refC.primary_key = false ∧ refC.unique = false →
            fkFindings tables tname c = [fkNonUniqueWarning tname c.name rt rc]) ∧
          ((refC.primary_key = true ∨ refC.unique = true) →
            fkFindings tables tname c = [])))) := by
  refine ⟨?_, ?_, ?_⟩
  · simp only [fkFindings, hfk]
    repeat' split
    all_goals simp
  · intro hp
    simp [fkFindings, hfk, hp]
  · intro rt rc hp
    refine ⟨?_, ?_⟩
    · intro hl
      simp [fkFindings, hfk, hp, hl]
    · intro refT hl
      refine ⟨?_, ?_⟩
      · intro hc
        simp [fkFindings, hfk, hp, hl, hc]
      · intro refC hc
        constructor
        · intro hu
          simp [fkFindings, hfk, hp, hl, hc, hu.1, hu.2]
        · intro hu
          rcases hu with hu | hu <;> simp [fkFindings, hfk, hp, hl, hc, hu]

/-- C5: validateSchema is deterministic: on equal (unmutated) inputs it
returns element-for-element identical finding lists; in this embedding the
function is pure by construction. -/
theorem validateSchema_deterministic (t1 t2 : List Table) (r1 r2 : List Relationship)
    (ht : t1 = t2) (hr : r1 = r2) : validateSchema t1 r1 = validateSchema t2 r2 := by
  rw [ht, hr]

/-- C4 (amended): validateSchema emits all duplicate-table-name errors
first, then per table (in declaration order) the missing-primary-key
warning followed by that table's duplicate-column errors (check 3 before
check 2 within a table), then the relationship findings in index order,
then the foreign-key findings in table and column order. -/
theorem validateSchema_check_order (tables : List Table) (rels : List Relationship) :
    validateSchema tables rels =
      dupTableFindings tables [] ++
      tables.flatMap (fun t =>
        (if (t.columns.filter (fun col => col.primary_key)).length = 0
          then [noPkWarning t.name] else []) ++
        dupColFindings t.name t.columns []) ++
      relSection tables rels 0 ++ fkSection tables :=
  validateSchema_eq_sections tables rels

theorem relEndpointsBroken_iff (tables : List Table) (r : Relationship) :
    relEndpointsBroken tables r = true ↔ brokenEndpoints tables r := by
  unfold relEndpointsBroken brokenEndpoints
  rcases hf : lookupTable tables r.from_table with _ | ft <;>
    rcases ht : lookupTable tables r.to_table with _ | tt <;>
    (try rcases hfc : ft.columns.find? (fun col => col.name == r.from_column) with _ | fc) <;>
    (try rcases htc : tt.columns.find? (fun col => col.name == r.to_column) with _ | tc)
  all_goals
    first
      | simp [-List.find?_eq_none, hf, ht, hfc, htc]
      | simp [-List.find?_eq_none, hf, ht, hfc]
      | simp [-List.find?_eq_none, hf, ht, htc]
      | simp [-List.find?_eq_none, hf, ht]

theorem exists_error_relFindings_iff (tables : List Table) (j : Nat) (r : Relationship) :
    (∃ e ∈ relFindings tables j r, e.type = Severity.error) ↔ brokenEndpoints tables r := by
  unfold brokenEndpoints
  rcases hf : lookupTable tables r.from_table with _ | ft <;>
    rcases ht : lookupTable tables r.to_table with _ | tt <;>
    simp only [relFindings, hf, ht] <;>
    (try rcases hfc : ft.columns.find? (fun col => col.name == r.from_column) with _ | fc) <;>
    (try rcases htc : tt.columns.find? (fun col => col.name == r.to_column) with _ | tc) <;>
    by_cases hcard : r.relationship_type ∈ cardinalityTypeMap r.cardinality
  all_goals
    first
      | simp [-List.find?_eq_none, hf, ht, hfc, htc, hcard,
          missingTableError, missingColumnError, cardinalityMismatchWarning]
      | simp [-List.find?_eq_none, hf, ht, hfc, hcard,
          missingTableError, missingColumnError, cardinalityMismatchWarning]
      | simp [-List.find?_eq_none, hf, ht, htc, hcard,
          missingTableError, missingColumnError, cardinalityMismatchWarning]
      | simp [-List.find?_eq_none, hf, ht, hcard,
          missingTableError, missingColumnError, cardinalityMismatchWarning]

theorem exists_error_relSection_iff (tables : List Table) (rs : List Relationship) :
    ∀ n i, (∃ e ∈ relSection tables rs n, e.type = Severity.error ∧
        e.relationship = some i) ↔
      ∃ k rel, rs[k]? = some rel ∧ i = n + k ∧ brokenEndpoints tables rel := by
  induction rs with
  | nil => intro n i; simp [relSection]
  | cons r rest ih =>
    intro n i
    constructor
    · rintro ⟨e, hmem, het, her⟩
      rw [relSection, List.mem_append] at hmem
      rcases hmem with hmem | hmem
      · have hrel := mem_relFindings tables n r e hmem
        rw [hrel] at her
        have hin : i = n := (Option.some.inj her).symm
        refine ⟨0, r, by simp, by omega, ?_⟩
        exact (exists_error_relFindings_iff tables n r).mp ⟨e, hmem, het⟩
      · obtain ⟨k, rel, hk, hi, hb⟩ := (ih (n + 1) i).mp ⟨e, hmem, het, her⟩
        exact ⟨k + 1, rel, by simpa using hk, by omega, hb⟩
    · rintro ⟨k, rel, hk, hi, hb⟩
      cases k with
      | zero =>
        have hr : r = rel := by simpa using hk
        subst hr
        obtain ⟨e, hmem, het⟩ := (exists_error_relFindings_iff tables n r).mpr hb
        refine ⟨e, ?_, het, ?_⟩
        · rw [relSection, List.mem_append]; exact Or.inl hmem
        · rw [mem_relFindings tables n r e hmem]; simp [hi]
      | succ m =>
        have hk2 : rest[m]? = some rel := by simpa using hk
        obtain ⟨e, hmem, het, her⟩ := (ih (n + 1) i).mpr ⟨m, rel, hk2, by omega, hb⟩
        refine ⟨e, ?_, het, her⟩
        rw [relSection, List.mem_append]; exact Or.inr hmem

theorem mem_getRelErrorsLoop (tables : List Table) (rs : List Relationship) :
    ∀ n i, i ∈ getRelErrorsLoop tables rs n ↔
      ∃ k rel, rs[k]? = some rel ∧ i = n + k ∧ relEndpointsBroken tables rel = true := by
  induction rs with
  | nil => intro n i; simp [getRelErrorsLoop]
  | cons r rest ih =>
    intro n i
    rw [getRelErrorsLoop, List.mem_append, ih (n + 1) i]
    constructor
    · rintro (hmem | ⟨k, rel, hk, hi, hb⟩)
      · by_cases hb : relEndpointsBroken tables r <;> simp [hb] at hmem
        exact ⟨0, r, by simp, by omega, by simpa [hmem] using hb⟩
      · exact ⟨k + 1, rel, by simpa using hk, by omega, hb⟩
    · rintro ⟨k, rel, hk, hi, hb⟩
      cases k with
      | zero =>
        have hr : r = rel := by simpa using hk
        subst hr
        left
        simp [hb, hi]
      | succ m =>
        right
        exact ⟨m, rel, by simpa using hk, by omega, hb⟩

/-- C10: getRelationshipErrors marks exactly the relationship indices for
which validateSchema emits at least one endpoint-existence error finding
(the findings with error severity located at a relationship index). -/
theorem getRelationshipErrors_agrees (tables : List Table) (rels : List Relationship)
    (i : Nat) :
    i ∈ getRelationshipErrors rels tables ↔
      ∃ e ∈ validateSchema tables rels, e.relationship = some i ∧
        e.type = Severity.error := by
  rw [getRelationshipErrors, mem_getRelErrorsLoop]
  constructor
  · rintro ⟨k, rel, hk, hi, hb⟩
    obtain ⟨e, hmem, het, her⟩ := (exists_error_relSection_iff tables rels 0 i).mpr
      ⟨k, rel, hk, by omega, (relEndpointsBroken_iff tables rel).mp hb⟩
    refine ⟨e, ?_, her, het⟩
    rw [validateSchema_eq_sections]
    simp only [List.mem_append]
    exact Or.inl (Or.inr hmem)
  · rintro ⟨e, hmem, her, het⟩
    rw [validateSchema_eq_sections] at hmem
    simp only [List.mem_append] at hmem
    rcases hmem with ((h1 | h2) | h3) | h4
    · have := (mem_dupTableFindings tables [] e h1).2
      rw [this] at her; cases her
    · rw [List.mem_flatMap] at h2
      obtain ⟨t, _, hmem2⟩ := h2
      have := (mem_tableFindings t e hmem2).1
      rw [this] at her; cases her
    · obtain ⟨k, rel, hk, hi, hb⟩ :=
        (exists_error_relSection_iff tables rels 0 i).mp ⟨e, h3, het, her⟩
      exact ⟨k, rel, hk, hi, (relEndpointsBroken_iff tables rel).mpr hb⟩
    · simp only [fkSection, List.mem_flatMap] at h4
      obtain ⟨t, _, c, _, hc⟩ := h4
      have := (mem_fkFindings tables t.name c e hc).1
      rw [this] at her; cases her

theorem junction_name_ne_empty (a b : String) : a ++ "_" ++ b ≠ "" := by
  intro h
  have hlen := congrArg String.length h
  rw [String.length_append, String.length_append] at hlen
  have h1 : ("_" : String).length = 1 := rfl
  have h0 : ("" : String).length = 0 := rfl
  omega

/-- C2: on a schema containing tables A and B joined by an N:M
relationship, createJunctionTable appends the junction table named A_B
with exactly the three specified columns, removes every N:M relationship
between A and B in either direction, and appends exactly the two
one-to-many 1:N relationships A.id into A_B.A_id and B.id into B_B.B_id. -/
theorem createJunctionTable_spec (s : AppState) (A B : String) (pos : Int × Int) (now : Nat)
    (_hA : ∃ t ∈ s.tables, t.name = A) (_hB : ∃ t ∈ s.tables, t.name = B)
    (_hNM : ∃ r ∈ s.relationships, isNMBetween A B r = true) :
    (createJunctionTable s A B pos now).tables =
      s.tables ++ [⟨A ++ "_" ++ B, A ++ "_" ++ B,
        [⟨A ++ "_id", "INTEGER", false, true, some (A ++ "(id)"), false, none⟩,
         ⟨B ++ "_id", "INTEGER", false, true, some (B ++ "(id)"), false, none⟩,
         ⟨"created_at", "TIMESTAMP", false, false, none, false, some "CURRENT_TIMESTAMP"⟩],
        pos⟩] ∧
    (createJunctionTable s A B pos now).relationships =
      s.relationships.filter (fun r => !(isNMBetween A B r)) ++
        [⟨A, "id", A ++ "_" ++ B, A ++ "_id", "one-to-many", "1:N"⟩,
         ⟨B, "id", A ++ "_" ++ B, B ++ "_id", "one-to-many", "1:N"⟩] ∧
    ∀ r ∈ (createJunctionTable s A B pos now).relationships,
      isNMBetween A B r = false := by
  have hname := junction_name_ne_empty A B
  have htab : (createJunctionTable s A B pos now).tables =
      s.tables ++ [⟨A ++ "_" ++ B, A ++ "_" ++ B,
        [⟨A ++ "_id", "INTEGER", false, true, some (A ++ "(id)"), false, none⟩,
         ⟨B ++ "_id", "INTEGER", false, true, some (B ++ "(id)"), false, none⟩,
         ⟨"created_at", "TIMESTAMP", false, false, none, false, some "CURRENT_TIMESTAMP"⟩],
        pos⟩] := by
    simp [createJunctionTable, addTable, addRelationship, hname]
  have hrel : (createJunctionTable s A B pos now).relationships =
      s.relationships.filter (fun r => !(isNMBetween A B r)) ++
        [⟨A, "id", A ++ "_" ++ B, A ++ "_id", "one-to-many", "1:N"⟩,
         ⟨B, "id", A ++ "_" ++ B, B ++ "_id", "one-to-many", "1:N"⟩] := by
    simp [createJunctionTable, addTable, addRelationship]
    apply List.filter_congr
    intro r _
    simp [isNMBetween, Bool.not_or, Bool.not_and]
  refine ⟨htab, hrel, ?_⟩
  intro r hr
  rw [hrel, List.mem_append] at hr
  rcases hr with hr | hr
  · have := (List.mem_filter.mp hr).2
    simpa using this
  · have h1 : (("1:N" : String) == "N:M") = false := by decide
    rcases List.mem_cons.mp hr with h | h
    · rw [h]; simp [isNMBetween, h1]
    · rcases List.mem_cons.mp h with h2 | h2
      · rw [h2]; simp [isNMBetween, h1]
      · simp at h2

/-- C1 (amended): createJunctionTable performs no precondition check and
never fails: for every schema and pair of table names, whether or not the
tables exist or any N:M relationship joins them, it appends the junction
table and never leaves the schema unchanged. -/
theorem createJunctionTable_no_guard (s : AppState) (A B : String) (pos : Int × Int)
    (now : Nat) :
    (createJunctionTable s A B pos now).tables =
      s.tables ++ [⟨A ++ "_" ++ B, A ++ "_" ++ B,
        [⟨A ++ "_id", "INTEGER", false, true, some (A ++ "(id)"), false, none⟩,
         ⟨B ++ "_id", "INTEGER", false, true, some (B ++ "(id)"), false, none⟩,
         ⟨"created_at", "TIMESTAMP", false, false, none, false, some "CURRENT_TIMESTAMP"⟩],
        pos⟩] ∧
    createJunctionTable s A B pos now ≠ s := by
  have hname := junction_name_ne_empty A B
  have htab : (createJunctionTable s A B pos now).tables =
      s.tables ++ [⟨A ++ "_" ++ B, A ++ "_" ++ B,
        [⟨A ++ "_id", "INTEGER", false, true, some (A ++ "(id)"), false, none⟩,
         ⟨B ++ "_id", "INTEGER", false, true, some (B ++ "(id)"), false, none⟩,
         ⟨"created_at", "TIMESTAMP", false, false, none, false, some "CURRENT_TIMESTAMP"⟩],
        pos⟩] := by
    simp [createJunctionTable, addTable, addRelationship, hname]
  refine ⟨htab, ?_⟩
  intro h
  have hlen := congrArg (fun st : AppState => st.tables.length) h
  simp [htab] at hlen

/-- C1 counterexample: on the empty schema, where neither table x nor y
exists and no N:M relationship exists, createJunctionTable does not fail
and does not leave the schema unchanged: it creates the junction table x_y
and adds two relationships. -/
theorem createJunctionTable_cex :
    (createJunctionTable ⟨[], []⟩ "x" "y" (0, 0) 0).tables.map (fun t => t.name) =
      ["x_y"] ∧
    (createJunctionTable ⟨[], []⟩ "x" "y" (0, 0) 0).relationships.length = 2 ∧
    createJunctionTable ⟨[], []⟩ "x" "y" (0, 0) 0 ≠ ⟨[], []⟩ := by
  refine ⟨rfl, rfl, ?_⟩
  decide

/-- C3: the table/relationship state on which the claim fails: removing the
SQL-parsed users table (whose id differs from its name) deletes the table
but leaves the relationship that references it by name, because removeTable
compares relationship endpoints against the id. -/
theorem removeTable_misses_name_refs :
    removeTable ⟨[parsedUsersTable], [usersSelfRel]⟩ "table_1700000000000_0" =
      ⟨[], [usersSelfRel]⟩ := by
  decide

theorem mem_updateRelationship (rels : List Relationship) (f : Relationship → Relationship) :
    ∀ i r, r ∈ updateRelationship rels i f → r ∈ rels ∨ ∃ x ∈ rels, r = f x := by
  induction rels with
  | nil => intro i r h; cases i <;> simp [updateRelationship] at h
  | cons a rest ih =>
    intro i r h
    cases i with
    | zero =>
      rw [updateRelationship] at h
      rcases List.mem_cons.mp h with h | h
      · exact Or.inr ⟨a, List.mem_cons_self a rest, h⟩
      · exact Or.inl (List.mem_cons_of_mem a h)
    | succ n =>
      rw [updateRelationship] at h
      rcases List.mem_cons.mp h with h | h
      · exact Or.inl (by simp [h])
      · rcases ih n r h with h | ⟨x, hx, hr⟩
        · exact Or.inl (List.mem_cons_of_mem a h)
        · exact Or.inr ⟨x, List.mem_cons_of_mem a hx, hr⟩

theorem setCardinality_mapping (rel : Relationship) (c : String)
    (hc : c = "1:1" ∨ c = "1:N" ∨ c = "N:M") :
    satisfiesMapping (setCardinality rel c) = true := by
  rcases hc with h | h | h <;> subst h <;> rfl

theorem setRelationshipType_mapping (rel : Relationship) (t : String)
    (ht : t = "one-to-one" ∨ t = "one-to-many" ∨ t = "many-to-one" ∨ t = "many-to-many") :
    satisfiesMapping (setRelationshipType rel t) = true := by
  rcases ht with h | h | h | h <;> subst h <;> rfl

/-- C8: relationship-editor edits preserve the cardinality-to-type mapping:
starting from relationships that all satisfy the mapping, updating any
index through the cardinality handler (with one of the three offered
cardinalities) or the type handler (with one of the four offered types),
or adding a freshly drawn connection, yields relationships that all
satisfy the mapping. -/
theorem relationship_edits_preserve_mapping (rels : List Relationship) (index : Nat)
    (c t src sh tgt th : String)
    (hall : ∀ r ∈ rels, satisfiesMapping r = true)
    (hc : c = "1:1" ∨ c = "1:N" ∨ c = "N:M")
    (ht : t = "one-to-one" ∨ t = "one-to-many" ∨ t = "many-to-one" ∨ t = "many-to-many") :
    (∀ r ∈ updateRelationship rels index (fun rel => setCardinality rel c),
      satisfiesMapping r = true) ∧
    (∀ r ∈ updateRelationship rels index (fun rel => setRelationshipType rel t),
      satisfiesMapping r = true) ∧
    (∀ r ∈ rels ++ [connectRelationship src sh tgt th], satisfiesMapping r = true) := by
  refine ⟨?_, ?_, ?_⟩
  · intro r hr
    rcases mem_updateRelationship rels _ index r hr with h | ⟨x, _, hrx⟩
    · exact hall r h
    · rw [hrx]; exact setCardinality_mapping x c hc
  · intro r hr
    rcases mem_updateRelationship rels _ index r hr with h | ⟨x, _, hrx⟩
    · exact hall r h
    · rw [hrx]; exact setRelationshipType_mapping x t ht
  · intro r hr
    rcases List.mem_append.mp hr with h | h
    · exact hall r h
    · rcases List.mem_cons.mp h with h2 | h2
      · rw [h2]; rfl
      · simp at h2

/-- C4 counterexample: on a single table with no primary key and a
duplicated column name, validateSchema emits the missing-primary-key
warning first and the duplicate-column error second, refuting the claimed
order of check 2 before check 3 within a table. -/
theorem validateSchema_order_cex :
    validateSchema [dupColTable] [] = [noPkWarning "t", dupColError "t" "a"] ∧
    (validateSchema [dupColTable] []).map (fun e => e.type) =
      [Severity.warning, Severity.error] := by
  exact ⟨rfl, rfl⟩

/-- Witness for C2 at the authors and books schema of the spec test. -/
theorem createJunctionTable_spec_witness :
    (createJunctionTable demoNM "authors" "books" (0, 0) 0).relationships =
      [⟨"authors", "id", "authors_books", "authors_id", "one-to-many", "1:N"⟩,
       ⟨"books", "id", "authors_books", "books_id", "one-to-many", "1:N"⟩] ∧
    (createJunctionTable demoNM "authors" "books" (0, 0) 0).tables.map (fun t => t.name) =
      ["authors", "books", "authors_books"] := by
  have h := createJunctionTable_spec demoNM "authors" "books" (0, 0) 0
    ⟨authorsTable, by simp [demoNM], rfl⟩
    ⟨booksTable, by simp [demoNM], rfl⟩
    ⟨⟨"authors", "id", "books", "id", "many-to-many", "N:M"⟩, by simp [demoNM], by decide⟩
  constructor
  · rw [h.2.1]; rfl
  · rw [h.1]; rfl

/-- Witness for C5 at a concrete schema. -/
theorem validateSchema_deterministic_witness :
    validateSchema [authorsTable] [] = validateSchema [authorsTable] [] :=
  validateSchema_deterministic [authorsTable] [authorsTable] [] [] rfl rfl

/-- Witness for C6 at the dangling ghost(id) reference of the spec test. -/
theorem fkFindings_first_fail_witness :
    fkFindings [] "users" ghostCol = [fkMissingTableError "users" "owner_id" "ghost"] := by
  have h := fkFindings_first_fail [] "users" ghostCol "ghost(id)" rfl
  exact (h.2.2 "ghost" "id" rfl).1 rfl

/-- Witness for C7 at the 1:1 many-to-many mismatch of the spec test. -/
theorem validateSchema_mismatch_count_witness :
    (validateSchema [] [mismatchRel]).count
      (cardinalityMismatchWarning 0 "1:1" "many-to-many") = 1 := by
  have h := validateSchema_mismatch_count [] [mismatchRel] 0 mismatchRel rfl
  exact h.trans (by rfl)

/-- Witness for C8 at a concrete one-relationship list. -/
theorem relationship_edits_preserve_mapping_witness :
    ((updateRelationship editDemoRels 0 (fun rel => setCardinality rel "N:M")).all
        satisfiesMapping &&
      (updateRelationship editDemoRels 0
        (fun rel => setRelationshipType rel "many-to-one")).all satisfiesMapping &&
      (editDemoRels ++ [connectRelationship "a" "x" "b" "y"]).all satisfiesMapping) = true := by
  have h := relationship_edits_preserve_mapping editDemoRels 0 "N:M" "many-to-one"
    "a" "x" "b" "y" (by decide) (Or.inr (Or.inr rfl)) (Or.inr (Or.inr (Or.inl rfl)))
  simp only [Bool.and_eq_true, List.all_eq_true]
  exact ⟨⟨fun r hr => h.1 r hr, fun r hr => h.2.1 r hr⟩, fun r hr => h.2.2 r hr⟩

end OperaDB
